import Mathlib

/-!
Shallow embedding of the FocusAi-Core Mode & Session Control Engine.

Sources embedded here:
* `src/ModeController/enums.py` — mode enumerations
* `src/ModeController/models.py` — `ModeSettings`
* `src/ModeController/mode_controller.py` — `ModeController` (transitions,
  enforcement, focus timer, custom-settings merge)
* `src/layers/window_history.py` — `WindowHistory` session segmenter and
  `AppStatistics` fold

Timestamps and durations are modelled as rationals (seconds).  External
side effects (window/browser actions, notifications, timers, logs) are
recorded in an explicit effect trace.  Fallible Python code (exceptions)
is modelled with `Option`.
-/

namespace FocusAi

/-- `ModeType` from `src/ModeController/enums.py`. -/
inductive ModeType
  | STANDARD
  | KIDS
  deriving DecidableEq, Repr

/-- `StandardSubMode` from `src/ModeController/enums.py`. -/
inductive StandardSubMode
  | NORMAL
  | FOCUS
  deriving DecidableEq, Repr

/-- `FocusType` from `src/ModeController/enums.py`. -/
inductive FocusType
  | DEEP
  | LIGHT
  | CUSTOM
  deriving DecidableEq, Repr

/-- `ModeSettings` from `src/ModeController/models.py`.  Fields that no
embedded operation reads (notification intensity, bedtime window, the
kids boolean flags, …) are omitted; `duration` is a `timedelta` in the
source and is held here in seconds.  A `duration` of `some 0` models the
falsy `timedelta(0)`. -/
structure ModeSettings where
  allowed_apps : List String := []
  blocked_apps : List String := []
  minimized_apps : List String := []
  duration : Option ℚ := none
  notifications_enabled : Bool := true
  time_limit : Option ℚ := none
  deriving DecidableEq, Repr

/-- Typed partial-update value for the dynamic `custom_settings` dict
accepted by `ModeController._apply_custom_settings`: each present field
overwrites the corresponding `ModeSettings` attribute (the source checks
`hasattr` and then `setattr`s; all four fields listed here exist on
`ModeSettings`). -/
structure CustomSettings where
  allowed_apps : Option (List String) := none
  blocked_apps : Option (List String) := none
  minimized_apps : Option (List String) := none
  duration : Option (Option ℚ) := none
  deriving DecidableEq, Repr

/-- The `setattr` loop of `_apply_custom_settings` applied to one stored
`ModeSettings` record. -/
def applyCustomToSettings (st : ModeSettings) (c : CustomSettings) : ModeSettings :=
  let st := match c.allowed_apps with | some v => { st with allowed_apps := v } | none => st
  let st := match c.blocked_apps with | some v => { st with blocked_apps := v } | none => st
  let st := match c.minimized_apps with | some v => { st with minimized_apps := v } | none => st
  match c.duration with | some v => { st with duration := v } | none => st

/-- Association-list lookup keyed by strings; models Python `dict.get`
returning `None` on a miss (`SettingsManager.get_mode_setting`). -/
def alookup {β : Type} : List (String × β) → String → Option β
  | [], _ => none
  | (k, v) :: rest, key => if k = key then some v else alookup rest key

/-- Association-list store; models Python `dict` assignment. -/
def alset {β : Type} : List (String × β) → String → β → List (String × β)
  | [], key, v => [(key, v)]
  | (k, w) :: rest, key, v =>
      if k = key then (key, v) :: rest else (k, w) :: alset rest key v

/-- The fields of `WindowInfo` (`src/models.py`) that the engine reads.
The source carries the timestamp as an ISO string and parses it with
`datetime.fromisoformat`; here it is a whole number of seconds (the
claims never depend on sub-second resolution). -/
structure WindowInfo where
  raw_title : String := ""
  timestamp : ℤ := 0
  window_type : String := "unknown"
  app : String := ""
  status : String := "Neutral"
  context : String := ""
  deriving DecidableEq, Repr

/-- Externally visible side effects of the mode engine, recorded as a
trace: window/browser actions, timers, persistence, notifications and
warning logs. -/
inductive Effect
  | closeTab (app : String)
  | closeWindow (app : String)
  | minimizeWindow (app : String)
  | scheduleFocusEnd
  | saveSessionData
  | cancelTimer
  | startTimer (durationSeconds : ℚ)
  | startKidsTimer (minutes : ℚ)
  | notifySent (title : String) (message : String)
  | warnMissingSettings (key : String)
  deriving DecidableEq, Repr

/-- Number of close actions (browser tab or window) in a trace. -/
def countClose (l : List Effect) : Nat :=
  l.countP fun e =>
    match e with
    | .closeTab _ => true
    | .closeWindow _ => true
    | _ => false

/-- Number of minimize actions in a trace. -/
def countMinimize (l : List Effect) : Nat :=
  l.countP fun e =>
    match e with
    | .minimizeWindow _ => true
    | _ => false

/-- Number of notifications in a trace. -/
def countNotify (l : List Effect) : Nat :=
  l.countP fun e =>
    match e with
    | .notifySent _ _ => true
    | _ => false

/-- The mutable state of `ModeController` that the embedded operations
read or write.  `mode_settings` is the `SettingsManager.mode_settings`
dict (the controller mutates its records in place through
`_apply_custom_settings`, so it is part of the state).  `timer_running`
models "a `_focus_timer_future` attribute exists and is not done". -/
structure ControllerState where
  current_mode : ModeType := .STANDARD
  current_submode : Option StandardSubMode := some .NORMAL
  current_focus_type : Option FocusType := none
  is_active : Bool := false
  mode_start_time : Option ℚ := none
  active_block : Bool := true
  transitioning : Bool := false
  shutdown : Bool := false
  timer_running : Bool := false
  mode_settings : List (String × ModeSettings) := []
  deriving DecidableEq, Repr

/-- The lowercase settings key `standard_focus_<name>` built by the
controller for a focus type. -/
def focusSettingsKey : FocusType → String
  | .DEEP => "standard_focus_deep"
  | .LIGHT => "standard_focus_light"
  | .CUSTOM => "standard_focus_custom"

/-- `ModeController._get_current_mode_settings`. -/
def getCurrentModeSettings (s : ControllerState) : Option ModeSettings :=
  match s.current_mode with
  | .KIDS => alookup s.mode_settings "kids"
  | .STANDARD =>
      match s.current_submode with
      | some .NORMAL => alookup s.mode_settings "standard_normal"
      | some .FOCUS =>
          match s.current_focus_type with
          | some ft => alookup s.mode_settings (focusSettingsKey ft)
          | none => none
      | none => none

/-- `ModeController._validate_mode_combination`.  The local defaulting of
`submode` to `NORMAL` for `STANDARD` does not escape this function. -/
def validateModeCombination (mode : ModeType) (submode : Option StandardSubMode)
    (focus_type : Option FocusType) : Bool :=
  match mode with
  | .KIDS => submode = none && focus_type = none
  | .STANDARD =>
      let sm := submode.getD .NORMAL
      if sm = .FOCUS && focus_type = none then false
      else if sm = .NORMAL && focus_type ≠ none then false
      else true

/-- Truthiness of an optional `timedelta`: `None` and `timedelta(0)` are
falsy in Python. -/
def durationTruthy : Option ℚ → Bool
  | none => false
  | some d => d ≠ 0

/-- Python `str.lower()` (character-wise lowercasing). -/
def strLower (s : String) : String := String.mk (s.data.map Char.toLower)

/-- `ModeController._handle_blocked_app` (with the default
`action_block=True` at its single call site): close the window or the
browser tab when the observation is classified `"Blocked"`. -/
def handleBlockedApp (w : WindowInfo) (action_block : Bool) : List Effect :=
  if !action_block || w.status ≠ "Blocked" then []
  else if w.window_type = "browser" then [.closeTab w.app]
  else [.closeWindow w.app]

/-- The focus-duration tail of `_apply_window_restrictions`: in a focus
submode with a truthy configured duration and a recorded start time,
schedule the asynchronous focus end once the elapsed time reaches the
duration. -/
def focusTimeCheck (now : ℚ) (s : ControllerState) (settings : ModeSettings) :
    List Effect :=
  if s.current_submode = some .FOCUS && durationTruthy settings.duration then
    match s.mode_start_time, settings.duration with
    | some start, some d => if now - start ≥ d then [Effect.scheduleFocusEnd] else []
    | _, _ => []
  else []

/-- `ModeController._apply_window_restrictions`: blocked check decided
first, minimize only on the `elif`, then the independent focus-duration
check that schedules an asynchronous focus end. -/
def applyWindowRestrictions (now : ℚ) (s : ControllerState) (w : WindowInfo)
    (settings : ModeSettings) : List Effect :=
  (if strLower w.app ∈ settings.blocked_apps then
      if w.window_type = "browser" then [Effect.closeTab w.app] else [Effect.closeWindow w.app]
    else if strLower w.app ∈ settings.minimized_apps then [Effect.minimizeWindow w.app]
    else [])
  ++ focusTimeCheck now s settings

/-- `ModeController.enforce_current_mode`: early return when the
observation is absent, a transition is in progress or shutdown is set;
otherwise the status-based blocked handler followed by the settings-based
restrictions (skipped entirely when the settings lookup misses). -/
def enforceCurrentMode (now : ℚ) (s : ControllerState) (w? : Option WindowInfo) :
    List Effect :=
  match w? with
  | none => []
  | some w =>
      if s.transitioning || s.shutdown then []
      else
        let e1 := if s.active_block then handleBlockedApp w true else []
        let e2 :=
          match getCurrentModeSettings s with
          | some st => applyWindowRestrictions now s w st
          | none => []
        e1 ++ e2

/-- `ModeController._cleanup_current_mode`: cancel a pending timer
future, persist the session record when leaving an active focus session,
then reset `mode_start_time` and `is_active`. -/
def cleanupCurrentMode (s : ControllerState) : ControllerState × List Effect :=
  let eff1 := if s.timer_running then [Effect.cancelTimer] else []
  let eff2 :=
    if s.current_submode = some .FOCUS && s.current_focus_type.isSome
        && s.mode_start_time.isSome then
      [Effect.saveSessionData]
    else []
  ({ s with timer_running := false, mode_start_time := none, is_active := false },
   eff1 ++ eff2)

/-- `ModeController._apply_custom_settings`: looks the stored record up
by the focus key and `setattr`s the overrides onto that record in place,
i.e. the stored settings dict itself is updated. -/
def applyCustomSettingsState (s : ControllerState) (ft : FocusType)
    (c : CustomSettings) : ControllerState :=
  let key := focusSettingsKey ft
  match alookup s.mode_settings key with
  | some cur =>
      { s with mode_settings := alset s.mode_settings key (applyCustomToSettings cur c) }
  | none => s

/-- `ModeController._apply_focus_mode_settings`: a missing settings
record is only a warning, never a failure. -/
def applyFocusModeSettings (s : ControllerState) (ft : FocusType) :
    Bool × List Effect :=
  let key := focusSettingsKey ft
  match alookup s.mode_settings key with
  | none => (true, [Effect.warnMissingSettings key])
  | some _ => (true, [])

/-- `ModeController._apply_kids_mode_settings`.  `none` models an
uncaught exception: line 393 evaluates `settings.duration` before any
`None` check (an `AttributeError` when the `"kids"` lookup missed), and
line 401 evaluates `float(settings.duration)` (a `TypeError` when the
stored duration is `None`). -/
def applyKidsModeSettings (s : ControllerState) : Option (Bool × List Effect) :=
  match alookup s.mode_settings "kids" with
  | none => none
  | some st =>
      match st.duration with
      | some d => some (true, [Effect.startKidsTimer (d / 60)])
      | none => none

/-- `ModeController._apply_mode_settings`: dispatch on the committed
combination; its `try`/`except` turns an exception from the kids branch
into `False`. -/
def applyModeSettings (mode : ModeType) (submode : Option StandardSubMode)
    (focus_type : Option FocusType) (s : ControllerState) : Bool × List Effect :=
  match mode with
  | .KIDS =>
      match applyKidsModeSettings s with
      | some r => r
      | none => (false, [])
  | .STANDARD =>
      match submode with
      | some .NORMAL => (true, [])
      | some .FOCUS =>
          match focus_type with
          | some ft => applyFocusModeSettings s ft
          | none => (false, [])
      | none => (false, [])

/-- Whether `_apply_kids_mode_settings` leaves a tracked timer future
behind (it stores `self._focus_timer_future` when it submits the
checking loop). -/
def kidsTimerStarted (s : ControllerState) : Bool :=
  match alookup s.mode_settings "kids" with
  | none => false
  | some st => st.duration.isSome

/-- `ModeController._start_focus_timer`: submit a timer worker only when
the resolved settings exist and carry a truthy duration. -/
def startFocusTimer (s : ControllerState) : ControllerState × List Effect :=
  if s.shutdown then (s, [])
  else
    match getCurrentModeSettings s with
    | some st =>
        match st.duration with
        | some d =>
            if d ≠ 0 then ({ s with timer_running := true }, [Effect.startTimer d])
            else (s, [])
        | none => (s, [])
    | none => (s, [])

/-- `ModeController._initialize_new_mode`: apply the committed mode's
settings, then for a focus submode record the start time, mark active
and start the focus timer. -/
def initializeNewMode (now : ℚ) (s : ControllerState) :
    Bool × ControllerState × List Effect :=
  let ap := applyModeSettings s.current_mode s.current_submode s.current_focus_type s
  if !ap.1 then (false, s, ap.2)
  else
    let s := if s.current_mode = .KIDS && kidsTimerStarted s then
        { s with timer_running := true } else s
    if s.current_submode = some .FOCUS then
      let s1 := { s with mode_start_time := some now, is_active := true }
      let ft := startFocusTimer s1
      (true, ft.1, ap.2 ++ ft.2)
    else (true, s, ap.2)

/-- The committed composite state inside `_perform_mode_switch` (step 2):
a `None` submode defaults to `NORMAL` only for `STANDARD`. -/
def commitNewState (s : ControllerState) (mode : ModeType)
    (submode : Option StandardSubMode) (focus_type : Option FocusType) :
    ControllerState :=
  { s with
    current_mode := mode,
    current_submode :=
      match submode with
      | some sm => some sm
      | none => if mode = .STANDARD then some .NORMAL else none,
    current_focus_type := focus_type }

/-- The state handed to `_initialize_new_mode` by `_perform_mode_switch`:
transition flag set, current mode cleaned up, new composite state
committed, custom overrides merged (only when both a custom dict and a
focus type were passed). -/
def preInitState (s : ControllerState) (mode : ModeType)
    (submode : Option StandardSubMode) (focus_type : Option FocusType)
    (custom : Option CustomSettings) : ControllerState :=
  let s0 := { s with transitioning := true }
  let s1 := (cleanupCurrentMode s0).1
  let s2 := commitNewState s1 mode submode focus_type
  match custom, focus_type with
  | some c, some ft => applyCustomSettingsState s2 ft c
  | _, _ => s2

/-- `ModeController._perform_mode_switch`: cleanup, commit, optional
custom merge, initialize; on initialization failure restore the
pre-transition (mode, submode, focus) triple and return `False`; the
`finally` always clears the transition flag. -/
def performModeSwitch (now : ℚ) (s : ControllerState) (mode : ModeType)
    (submode : Option StandardSubMode) (focus_type : Option FocusType)
    (custom : Option CustomSettings) : Bool × ControllerState × List Effect :=
  let s0 := { s with transitioning := true }
  let cl := cleanupCurrentMode s0
  let oldMode := cl.1.current_mode
  let oldSub := cl.1.current_submode
  let oldFocus := cl.1.current_focus_type
  let s3 := preInitState s mode submode focus_type custom
  let ini := initializeNewMode now s3
  if ini.1 then
    (true, { ini.2.1 with transitioning := false }, cl.2 ++ ini.2.2)
  else
    (false,
     { ini.2.1 with
       current_mode := oldMode, current_submode := oldSub,
       current_focus_type := oldFocus, transitioning := false },
     cl.2 ++ ini.2.2)

/-- `ModeController.switch_to_mode`: reject during transition/shutdown,
validate, take the idempotent shortcut when the requested triple equals
the current one, otherwise perform the switch. -/
def switchToMode (now : ℚ) (s : ControllerState) (mode : ModeType)
    (submode : Option StandardSubMode) (focus_type : Option FocusType)
    (custom : Option CustomSettings) : Bool × ControllerState × List Effect :=
  if s.transitioning || s.shutdown then (false, s, [])
  else if !validateModeCombination mode submode focus_type then (false, s, [])
  else if s.current_mode = mode && s.current_submode = submode
      && s.current_focus_type = focus_type then (true, s, [])
  else performModeSwitch now s mode submode focus_type custom

/-- `ModeController._end_focus_session_async`: the asynchronous task that
switches back to Standard/Normal.  The result of `switch_to_mode` is
discarded by the source; the completion notification is gated only on
the shutdown flag.  The `Option Bool` reports the switch result, `none`
when the early shutdown return fired. -/
def endFocusSessionAsync (now : ℚ) (s : ControllerState) :
    ControllerState × List Effect × Option Bool :=
  if s.shutdown then (s, [], none)
  else
    let r := switchToMode now s .STANDARD (some .NORMAL) none none
    let eff2 :=
      if r.2.1.shutdown = false then
        [Effect.notifySent "Focus session complete!" "Your focus session has ended"]
      else []
    (r.2.1, r.2.2 ++ eff2, some r.1)

/-- `ModeController._schedule_focus_end`: only schedules the async end
task when not shutting down and still in a focus submode.  The submitted
task is run here directly (sequential model of the executor). -/
def scheduleFocusEnd (now : ℚ) (s : ControllerState) :
    ControllerState × List Effect × Option Bool :=
  if s.shutdown then (s, [], none)
  else if s.current_submode = some .FOCUS then endFocusSessionAsync now s
  else (s, [], none)

/-- The tail of `ModeController._focus_timer_worker` after the sleep
loop finished without a shutdown: natural expiry triggers the
schedule-focus-end path unless shutdown or a transition intervened. -/
def focusTimerNaturalExpiry (now : ℚ) (s : ControllerState) :
    ControllerState × List Effect × Option Bool :=
  if s.shutdown = false && s.transitioning = false then scheduleFocusEnd now s
  else (s, [], none)

/-! ## Session segmenter (`src/layers/window_history.py`) -/

/-- `AppSession` from `src/layers/window_history.py`.  Durations are in
seconds; the `(timestamp, status)` pairs of `status_changes` keep the
timestamp as a rational instead of an ISO string. -/
structure AppSession where
  app_name : String
  start_time : ℤ
  end_time : Option ℤ := none
  total_duration : ℤ := 0
  context_changes : List String := []
  titles_seen : List String := []
  status_changes : List (ℤ × String) := []
  window_count : Nat := 0
  session_id : Option Nat := none
  deriving DecidableEq, Repr

/-- `AppStatistics` from `src/layers/window_history.py`; the `contexts`
and `statuses` dicts are association lists here. -/
structure AppStatistics where
  app_name : String
  total_time : ℚ := 0
  session_count : Nat := 0
  contexts : List (String × ℚ) := []
  statuses : List (String × ℚ) := []
  average_session_duration : ℚ := 0
  longest_session : ℚ := 0
  last_used : Option ℤ := none
  deriving DecidableEq, Repr

/-- Python `dict.get(k, 0)` over an association list of rationals. -/
def alget (m : List (String × ℚ)) (k : String) : ℚ :=
  (alookup m k).getD 0

/-- The state of `WindowHistory` that the embedded operations touch.
The database manager is an external collaborator; sessions saved on
finalize are collected in `finalized`, and `next_session_id` stands in
for the ids the database hands out when a session is first saved.
`mode_controller_present` models the optional `Mode_Controller`
constructor argument. -/
structure HistoryState where
  session_gap_seconds : ℤ := 30
  raw_history : List WindowInfo := []
  current_session : Option AppSession := none
  app_statistics : List (String × AppStatistics) := []
  last_window_time : Option ℤ := none
  last_app : Option String := none
  finalized : List AppSession := []
  next_session_id : Nat := 1
  mode_controller_present : Bool := true
  deriving DecidableEq, Repr

/-- `WindowHistory._should_start_new_session`: no open session, a
different app, or a same-app gap strictly above the threshold. -/
def shouldStartNewSession (st : HistoryState) (app_name : String) (current_time : ℤ) :
    Bool :=
  match st.current_session with
  | none => true
  | some cs =>
      if cs.app_name ≠ app_name then true
      else
        match st.last_window_time with
        | some lt => current_time - lt > st.session_gap_seconds
        | none => false

/-- The statistics record for an app before a fold (a fresh record when
the app was never seen), as read by `_update_app_statistics`. -/
def statsBefore (m : List (String × AppStatistics)) (app : String) : AppStatistics :=
  (alookup m app).getD { app_name := app }

/-- The first three statements of `_update_app_statistics`:
`total_time += duration`, `session_count += 1`,
`last_used = session.end_time or session.start_time`. -/
def statsWithBasics (stats : AppStatistics) (session : AppSession) : AppStatistics :=
  { stats with
    total_time := stats.total_time + (session.total_duration : ℚ),
    session_count := stats.session_count + 1,
    last_used :=
      match session.end_time with
      | some e => some e
      | none => some session.start_time }

/-- The longest-session update of `_update_app_statistics`. -/
def statsWithLongest (stats : AppStatistics) (session : AppSession) : AppStatistics :=
  if (session.total_duration : ℚ) > stats.longest_session then
    { stats with longest_session := (session.total_duration : ℚ) }
  else stats

/-- The even context-time distribution block of
`_update_app_statistics`. -/
def statsWithContexts (stats : AppStatistics) (session : AppSession) : AppStatistics :=
  if session.context_changes ≠ [] then
    { stats with
      contexts := session.context_changes.foldl
        (fun m context =>
          if context ≠ "" then
            alset m context (alget m context
              + (session.total_duration : ℚ) / (session.context_changes.length : ℚ))
          else m)
        stats.contexts }
  else stats

/-- The even status-time distribution block of
`_update_app_statistics`. -/
def statsWithStatuses (stats : AppStatistics) (session : AppSession) : AppStatistics :=
  if session.status_changes ≠ [] then
    { stats with
      statuses := session.status_changes.foldl
        (fun m p => alset m p.2 (alget m p.2
          + (session.total_duration : ℚ) / (session.status_changes.length : ℚ)))
        stats.statuses }
  else stats

/-- `AppStatistics.update_averages`. -/
def statsWithAverage (stats : AppStatistics) : AppStatistics :=
  if 0 < stats.session_count then
    { stats with average_session_duration := stats.total_time / stats.session_count }
  else stats

/-- `WindowHistory._update_app_statistics`: the statistics fold run once
per finalized session, as the sequence of mutations above followed by
the store-back into the statistics dict. -/
def updateAppStatistics (stats_map : List (String × AppStatistics))
    (session : AppSession) : List (String × AppStatistics) :=
  alset stats_map session.app_name
    (statsWithAverage (statsWithStatuses (statsWithContexts (statsWithLongest
      (statsWithBasics (statsBefore stats_map session.app_name) session)
      session) session) session))

/-- `WindowHistory._end_current_session`: set `end_time`, compute the
duration, archive the session (database update) and fold it into the
statistics. -/
def endCurrentSession (st : HistoryState) (end_time : ℤ) : HistoryState :=
  match st.current_session with
  | none => st
  | some cs =>
      let duration := end_time - cs.start_time
      let cs := { cs with end_time := some end_time, total_duration := duration }
      { st with
        current_session := none,
        app_statistics := updateAppStatistics st.app_statistics cs,
        finalized := st.finalized ++ [cs] }

/-- `WindowHistory._start_new_session`: seed the new session from the
triggering observation; the database assigns it an id. -/
def startNewSession (st : HistoryState) (w : WindowInfo) (start_time : ℤ) :
    HistoryState :=
  { st with
    current_session := some
      { app_name := w.app,
        start_time := start_time,
        context_changes := if w.context ≠ "" then [w.context] else [],
        titles_seen := [w.raw_title],
        status_changes := [(start_time, w.status)],
        window_count := 1,
        session_id := some st.next_session_id },
    next_session_id := st.next_session_id + 1 }

/-- `WindowHistory._update_current_session`: record a new context, a
title not among the last ten, a status change, bump the window count,
and every tenth record refresh `total_duration` for the periodic
database update. -/
def updateCurrentSession (st : HistoryState) (w : WindowInfo) (current_time : ℤ) :
    HistoryState :=
  match st.current_session with
  | none => st
  | some session =>
      let session :=
        if w.context ≠ "" && w.context ∉ session.context_changes then
          { session with context_changes := session.context_changes ++ [w.context] }
        else session
      let session :=
        if w.raw_title ∉ session.titles_seen.drop (session.titles_seen.length - 10) then
          { session with titles_seen := session.titles_seen ++ [w.raw_title] }
        else session
      let session :=
        match session.status_changes.getLast? with
        | some last =>
            if last.2 ≠ w.status then
              { session with
                status_changes := session.status_changes ++ [(current_time, w.status)] }
            else session
        | none => session
      let session := { session with window_count := session.window_count + 1 }
      let session :=
        if session.window_count % 10 = 0 && session.session_id.isSome then
          { session with total_duration := current_time - session.start_time }
        else session
      { st with current_session := some session }

/-- The observable steps of one `_add_window_info_unsafe` call, in
program order. -/
inductive SegEvent
  | sessionFinalized
  | sessionStarted
  | enforced
  | sessionUpdated
  deriving DecidableEq, Repr

/-- `WindowHistory._add_window_info_unsafe`: append to the raw cache,
decide the boundary, then either finalize + open + enforce or update in
place, and record the tracking state. -/
def addWindowInfo (st : HistoryState) (w : WindowInfo) :
    HistoryState × List SegEvent :=
  let current_time := w.timestamp
  let rh := st.raw_history ++ [w]
  let rh := if rh.length > 10000 then rh.drop (rh.length - 10000) else rh
  let st := { st with raw_history := rh }
  let is_new_session := shouldStartNewSession st w.app current_time
  let step : HistoryState × List SegEvent :=
    if is_new_session then
      let fin := if st.current_session.isSome then [SegEvent.sessionFinalized] else []
      let st := endCurrentSession st current_time
      let st := startNewSession st w current_time
      let evs :=
        if st.mode_controller_present then
          fin ++ [SegEvent.sessionStarted, SegEvent.enforced]
        else fin ++ [SegEvent.sessionStarted]
      (st, evs)
    else (updateCurrentSession st w current_time, [SegEvent.sessionUpdated])
  ({ step.1 with last_window_time := some current_time, last_app := some w.app }, step.2)

/-! ## Helper lemmas -/

theorem alookup_alset_self {β : Type} (m : List (String × β)) (k : String) (v : β) :
    alookup (alset m k v) k = some v := by
  induction m with
  | nil => simp [alset, alookup]
  | cons hd tl ih =>
      obtain ⟨k', v'⟩ := hd
      by_cases h : k' = k
      · simp [alset, alookup, h]
      · simp [alset, alookup, h, ih]

theorem alookup_alset_ne {β : Type} (m : List (String × β)) (k k' : String) (v : β)
    (h : k' ≠ k) : alookup (alset m k v) k' = alookup m k' := by
  have h' : ¬(k = k') := fun hh => h hh.symm
  induction m with
  | nil => simp [alset, alookup, h']
  | cons hd tl ih =>
      obtain ⟨k₀, v₀⟩ := hd
      by_cases h0 : k₀ = k
      · subst h0
        simp [alset, alookup, h']
      · simp only [alset, if_neg h0, alookup]
        by_cases h1 : k₀ = k'
        · simp [h1]
        · simp [h1, ih]

theorem cleanup_preserves_triple (s : ControllerState) :
    (cleanupCurrentMode s).1.current_mode = s.current_mode ∧
    (cleanupCurrentMode s).1.current_submode = s.current_submode ∧
    (cleanupCurrentMode s).1.current_focus_type = s.current_focus_type :=
  ⟨rfl, rfl, rfl⟩

/-- Initializing a committed Standard/Normal state always succeeds and
does nothing (`_apply_normal_mode_settings` returns `True`
unconditionally). -/
theorem initializeNewMode_normal (now : ℚ) (s : ControllerState)
    (h1 : s.current_mode = .STANDARD) (h2 : s.current_submode = some .NORMAL) :
    initializeNewMode now s = (true, s, []) := by
  unfold initializeNewMode applyModeSettings
  simp [h1, h2]

theorem countNotify_cleanup (s : ControllerState) :
    countNotify (cleanupCurrentMode s).2 = 0 := by
  unfold cleanupCurrentMode countNotify
  split <;> split <;> simp [List.countP_append, List.countP_cons]

/-- The full-switch path to Standard/Normal, written out: it commits the
new composite state over the cleaned-up state and reports success. -/
theorem performModeSwitch_to_normal (now : ℚ) (s : ControllerState) :
    performModeSwitch now s .STANDARD (some .NORMAL) none none
      = (true,
         { preInitState s .STANDARD (some .NORMAL) none none with transitioning := false },
         (cleanupCurrentMode { s with transitioning := true }).2 ++ []) := rfl

/-- Switching back to Standard/Normal from a non-transitioning,
non-shutdown state always succeeds (the normal-mode initializer cannot
fail), preserves the shutdown flag, ends at the Standard/Normal
composite state and emits no notification. -/
theorem switch_to_normal_spec (now : ℚ) (s : ControllerState)
    (htr : s.transitioning = false) (hsh : s.shutdown = false) :
    (switchToMode now s .STANDARD (some .NORMAL) none none).1 = true ∧
    (switchToMode now s .STANDARD (some .NORMAL) none none).2.1.shutdown = false ∧
    (switchToMode now s .STANDARD (some .NORMAL) none none).2.1.current_mode = .STANDARD ∧
    (switchToMode now s .STANDARD (some .NORMAL) none none).2.1.current_submode
      = some .NORMAL ∧
    (switchToMode now s .STANDARD (some .NORMAL) none none).2.1.current_focus_type
      = none ∧
    countNotify (switchToMode now s .STANDARD (some .NORMAL) none none).2.2 = 0 := by
  by_cases hid : s.current_mode = ModeType.STANDARD
      ∧ s.current_submode = some StandardSubMode.NORMAL
      ∧ s.current_focus_type = none
  · obtain ⟨h1, h2, h3⟩ := hid
    unfold switchToMode
    simp [htr, hsh, h1, h2, h3, validateModeCombination, countNotify]
  · have hb : (decide (s.current_mode = ModeType.STANDARD)
        && decide (s.current_submode = some StandardSubMode.NORMAL)
        && decide (s.current_focus_type = none)) = false := by
      rw [Bool.eq_false_iff]
      intro hc
      exact hid (by simpa [and_assoc] using hc)
    have hval : validateModeCombination .STANDARD (some .NORMAL) none = true := rfl
    unfold switchToMode
    rw [performModeSwitch_to_normal now s]
    simp only [htr, hsh, hval, hb, Bool.or_self, Bool.not_true, Bool.false_eq_true,
      if_false]
    refine ⟨?_, ?_, ?_, ?_, ?_, ?_⟩ <;>
      first
        | trivial
        | exact hsh
        | (rw [List.append_nil]; exact countNotify_cleanup _)
        | rfl

/-! ## Claim theorems -/

/-- Claim C1: a call to `switch_to_mode` that passes validation, is not
the idempotent no-op and whose new-mode initialization fails returns
`false` and leaves the (mode, submode, focus_type) triple exactly as it
was before the call. -/
theorem c1_rollback_on_init_failure (now : ℚ) (s : ControllerState) (mode : ModeType)
    (submode : Option StandardSubMode) (focus_type : Option FocusType)
    (custom : Option CustomSettings)
    (htr : s.transitioning = false) (hsh : s.shutdown = false)
    (hv : validateModeCombination mode submode focus_type = true)
    (hne : ¬(s.current_mode = mode ∧ s.current_submode = submode ∧
             s.current_focus_type = focus_type))
    (hinit : (initializeNewMode now (preInitState s mode submode focus_type custom)).1
      = false) :
    (switchToMode now s mode submode focus_type custom).1 = false ∧
    (switchToMode now s mode submode focus_type custom).2.1.current_mode
      = s.current_mode ∧
    (switchToMode now s mode submode focus_type custom).2.1.current_submode
      = s.current_submode ∧
    (switchToMode now s mode submode focus_type custom).2.1.current_focus_type
      = s.current_focus_type := by
  have hb : (decide (s.current_mode = mode) && decide (s.current_submode = submode)
      && decide (s.current_focus_type = focus_type)) = false := by
    rw [Bool.eq_false_iff]
    intro hc
    exact hne (by simpa [and_assoc] using hc)
  unfold switchToMode performModeSwitch
  simp only [htr, hsh, hv, hb, hinit]
  simp [cleanupCurrentMode]

/-- Concrete rollback run: from Standard/Normal with no `"kids"` settings
record, switching to Kids mode fails during initialization (the missing
record makes `_apply_kids_mode_settings` raise) and the composite triple
is unchanged. -/
theorem c1_rollback_on_init_failure_witness :
    (switchToMode 0 { mode_settings := [] } .KIDS none none none).1 = false ∧
    (switchToMode 0 { mode_settings := [] } .KIDS none none none).2.1.current_mode
      = ModeType.STANDARD ∧
    (switchToMode 0 { mode_settings := [] } .KIDS none none none).2.1.current_submode
      = some StandardSubMode.NORMAL ∧
    (switchToMode 0 { mode_settings := [] } .KIDS none none none).2.1.current_focus_type
      = none :=
  c1_rollback_on_init_failure 0 { mode_settings := [] } .KIDS none none none rfl rfl
    rfl (by decide) rfl

/-- Claim C2: requesting the composite state the controller is already in
returns `true` and does nothing at all — the state is returned unchanged
and the effect trace is empty (no cleanup, no timer cancellation or
restart). -/
theorem c2_idempotent_switch (now : ℚ) (s : ControllerState) (mode : ModeType)
    (submode : Option StandardSubMode) (focus_type : Option FocusType)
    (custom : Option CustomSettings)
    (htr : s.transitioning = false) (hsh : s.shutdown = false)
    (hv : validateModeCombination mode submode focus_type = true)
    (hm : s.current_mode = mode) (hsm : s.current_submode = submode)
    (hf : s.current_focus_type = focus_type) :
    switchToMode now s mode submode focus_type custom = (true, s, []) := by
  unfold switchToMode
  simp [htr, hsh, hv, hm, hsm, hf]

/-- A controller sitting in an active Deep-focus session with a running
timer. -/
def sDeepFocus : ControllerState :=
  { current_submode := some .FOCUS, current_focus_type := some .DEEP,
    is_active := true, mode_start_time := some 0, timer_running := true }

/-- Concrete idempotent run: a controller in Deep focus with a running
timer, asked for Deep focus again, returns `true`, keeps its state
bit-for-bit and performs no effect. -/
theorem c2_idempotent_switch_witness :
    switchToMode 5 sDeepFocus .STANDARD (some .FOCUS) (some .DEEP) none
      = (true, sDeepFocus, []) :=
  c2_idempotent_switch 5 sDeepFocus .STANDARD (some .FOCUS) (some .DEEP) none rfl rfl
    rfl rfl rfl rfl

theorem focusTimeCheck_counts (now : ℚ) (s : ControllerState) (settings : ModeSettings) :
    countClose (focusTimeCheck now s settings) = 0 ∧
    countMinimize (focusTimeCheck now s settings) = 0 := by
  unfold focusTimeCheck countClose countMinimize
  split
  · split
    · split <;> simp [List.countP_cons]
    · simp
  · simp

/-- Claim C3: when an observation's app is in both `blocked_apps` and
`minimized_apps`, `_apply_window_restrictions` issues exactly one close
action and no minimize action — the blocked branch wins and the minimize
branch is its `elif`. -/
theorem c3_block_beats_minimize (now : ℚ) (s : ControllerState) (w : WindowInfo)
    (settings : ModeSettings)
    (hb : strLower w.app ∈ settings.blocked_apps)
    (hm : strLower w.app ∈ settings.minimized_apps) :
    countClose (applyWindowRestrictions now s w settings) = 1 ∧
    countMinimize (applyWindowRestrictions now s w settings) = 0 := by
  obtain ⟨hc0, hm0⟩ := focusTimeCheck_counts now s settings
  unfold applyWindowRestrictions
  rw [if_pos hb]
  constructor
  · unfold countClose at hc0 ⊢
    rw [List.countP_append]
    split <;> simp [hc0, List.countP_cons]
  · unfold countMinimize at hm0 ⊢
    rw [List.countP_append]
    split <;> simp [hm0, List.countP_cons]

/-- Concrete precedence run: `"chrome"` blocked and minimized at once
yields one close and zero minimizes. -/
theorem c3_block_beats_minimize_witness :
    countClose (applyWindowRestrictions 0 {} { app := "chrome" }
      { blocked_apps := ["chrome"], minimized_apps := ["chrome"] }) = 1 ∧
    countMinimize (applyWindowRestrictions 0 {} { app := "chrome" }
      { blocked_apps := ["chrome"], minimized_apps := ["chrome"] }) = 0 :=
  c3_block_beats_minimize 0 {} { app := "chrome" }
    { blocked_apps := ["chrome"], minimized_apps := ["chrome"] }
    (by decide) (by decide)

/-- The full-switch path for `switch_to_mode(STANDARD)` with the submode
omitted: the committed submode defaults to `NORMAL` inside
`_perform_mode_switch` and initialization succeeds. -/
theorem performModeSwitch_none_sub (now : ℚ) (s : ControllerState)
    (custom : Option CustomSettings) :
    performModeSwitch now s .STANDARD none none custom
      = (true,
         { preInitState s .STANDARD none none custom with transitioning := false },
         (cleanupCurrentMode { s with transitioning := true }).2 ++ []) := by
  cases custom <;> rfl

/-- Claim C10: from Standard/Normal, `switch_to_mode(STANDARD)` with
submode and focus type omitted does not take the idempotent shortcut —
the omitted `None` submode is compared against the current `NORMAL`
(validation's defaulting is local) — so the call runs the full
cleanup-and-reinitialize switch, returns `true`, and ends again at
Standard/Normal with the timing state reset by the cleanup. -/
theorem c10_omitted_submode_not_idempotent (now : ℚ) (s : ControllerState)
    (custom : Option CustomSettings)
    (hm : s.current_mode = .STANDARD) (hsm : s.current_submode = some .NORMAL)
    (hf : s.current_focus_type = none)
    (htr : s.transitioning = false) (hsh : s.shutdown = false) :
    ¬(s.current_mode = .STANDARD ∧ s.current_submode = (none : Option StandardSubMode) ∧
      s.current_focus_type = (none : Option FocusType)) ∧
    switchToMode now s .STANDARD none none custom
      = performModeSwitch now s .STANDARD none none custom ∧
    (switchToMode now s .STANDARD none none custom).1 = true ∧
    (switchToMode now s .STANDARD none none custom).2.1.current_mode = .STANDARD ∧
    (switchToMode now s .STANDARD none none custom).2.1.current_submode
      = some .NORMAL ∧
    (switchToMode now s .STANDARD none none custom).2.1.current_focus_type = none ∧
    (switchToMode now s .STANDARD none none custom).2.1.mode_start_time = none ∧
    (switchToMode now s .STANDARD none none custom).2.1.is_active = false ∧
    (switchToMode now s .STANDARD none none custom).2.1.timer_running = false := by
  have hval : validateModeCombination .STANDARD none none = true := rfl
  have hb : (decide (s.current_mode = ModeType.STANDARD)
      && decide (s.current_submode = (none : Option StandardSubMode))
      && decide (s.current_focus_type = (none : Option FocusType))) = false := by
    simp [hsm]
  have heq : switchToMode now s .STANDARD none none custom
      = performModeSwitch now s .STANDARD none none custom := by
    unfold switchToMode
    simp only [htr, hsh, hval, hb, Bool.or_self, Bool.not_true, Bool.false_eq_true,
      if_false]
  cases custom <;>
    exact ⟨by simp [hsm], heq, by rw [heq, performModeSwitch_none_sub]; try exact rfl,
      by rw [heq, performModeSwitch_none_sub]; try exact rfl, by rw [heq, performModeSwitch_none_sub]; try exact rfl,
      by rw [heq, performModeSwitch_none_sub]; try exact rfl, by rw [heq, performModeSwitch_none_sub]; try exact rfl,
      by rw [heq, performModeSwitch_none_sub]; try exact rfl, by rw [heq, performModeSwitch_none_sub]; try exact rfl⟩

/-- A Standard/Normal controller with timing leftovers and a pending
timer future, to make the cleanup observable. -/
def sC10 : ControllerState :=
  { is_active := true, mode_start_time := some 5, timer_running := true }

/-- Concrete run of the omitted-submode call: returns `true`, ends at
Standard/Normal, and the cleanup reset the timing state. -/
theorem c10_omitted_submode_not_idempotent_witness :
    (switchToMode 7 sC10 .STANDARD none none none).1 = true ∧
    (switchToMode 7 sC10 .STANDARD none none none).2.1.current_submode
      = some .NORMAL ∧
    (switchToMode 7 sC10 .STANDARD none none none).2.1.mode_start_time = none ∧
    (switchToMode 7 sC10 .STANDARD none none none).2.1.is_active = false :=
  ⟨(c10_omitted_submode_not_idempotent 7 sC10 none rfl rfl rfl rfl rfl).2.2.1,
   (c10_omitted_submode_not_idempotent 7 sC10 none rfl rfl rfl rfl rfl).2.2.2.2.1,
   (c10_omitted_submode_not_idempotent 7 sC10 none rfl rfl rfl rfl rfl).2.2.2.2.2.2.1,
   (c10_omitted_submode_not_idempotent 7 sC10 none rfl rfl rfl rfl rfl).2.2.2.2.2.2.2.1⟩

/-- A controller at Standard/Normal whose settings store has no `"kids"`
record. -/
def sNoKidsKey : ControllerState :=
  { mode_settings := [("standard_normal", {}),
      ("standard_focus_deep",
        { blocked_apps := ["discord"], minimized_apps := ["vlc"],
          duration := some 3600 })] }

/-- Claim C8 evaluated at its failing input: with no stored `"kids"`
settings record, switching to Kids mode returns `false` and rolls back —
the unguarded `settings.duration` read on line 393 of
`mode_controller.py` raises before the missing-settings handling can
run — where the claim requires `true` with only a warning.  The
focus-key half of the claim does hold: a missing focus settings record
yields `true` plus a warning. -/
theorem c8_kids_lookup_miss_is_failure :
    alookup sNoKidsKey.mode_settings "kids" = none ∧
    (switchToMode 0 sNoKidsKey .KIDS none none none).1 = false ∧
    (switchToMode 0 sNoKidsKey .KIDS none none none).2.1.current_mode
      = ModeType.STANDARD ∧
    applyFocusModeSettings { mode_settings := [] } .DEEP
      = (true, [Effect.warnMissingSettings "standard_focus_deep"]) :=
  ⟨rfl, rfl, rfl, rfl⟩

/-- Deep-focus settings as stored before any custom override. -/
def deepBase : ModeSettings :=
  { blocked_apps := ["discord"], minimized_apps := ["vlc"], duration := some 3600 }

/-- A controller at Standard/Normal with the stock settings store. -/
def sC6 : ControllerState :=
  { mode_settings := [("standard_normal", {}), ("standard_focus_deep", deepBase)] }

/-- A custom override replacing the blocked list for one focus session. -/
def c6custom : CustomSettings := { blocked_apps := some ["facebook"] }

/-- State after a Deep-focus transition carrying the custom override. -/
def c6AfterFocus : ControllerState :=
  (switchToMode 0 sC6 .STANDARD (some .FOCUS) (some .DEEP) (some c6custom)).2.1

/-- State after returning to Standard/Normal. -/
def c6AfterNormal : ControllerState :=
  (switchToMode 50 c6AfterFocus .STANDARD (some .NORMAL) none none).2.1

/-- A later Deep-focus transition with no custom settings. -/
def c6SecondFocus : Bool × ControllerState × List Effect :=
  switchToMode 100 c6AfterNormal .STANDARD (some .FOCUS) (some .DEEP) none

/-- Claim C6 is false on the code: a Deep-focus session with a custom
override, then a return to normal, then a second Deep-focus session with
no custom settings — the second session resolves settings that still
carry the first session's override (`blocked_apps = ["facebook"]`
instead of the stored `["discord"]`), because `_apply_custom_settings`
mutates the stored record in place. -/
theorem c6_counterexample_overrides_leak :
    deepBase.blocked_apps = ["discord"] ∧
    (switchToMode 0 sC6 .STANDARD (some .FOCUS) (some .DEEP) (some c6custom)).1
      = true ∧
    (switchToMode 50 c6AfterFocus .STANDARD (some .NORMAL) none none).1 = true ∧
    c6SecondFocus.1 = true ∧
    (getCurrentModeSettings c6SecondFocus.2.1).map ModeSettings.blocked_apps
      = some ["facebook"] :=
  ⟨rfl, rfl, rfl, rfl, rfl⟩

/-- Claim C6 amended: the custom overrides are merged into the stored
settings record itself — the transition resolves the merged record for
the session, the store keeps the merged record afterwards (other keys
untouched), so later lookups of the same focus key see the earlier
session's overrides. -/
theorem c6_amended_merge_mutates_store (s : ControllerState) (ft : FocusType)
    (c : CustomSettings) (st : ModeSettings)
    (h : alookup s.mode_settings (focusSettingsKey ft) = some st) :
    alookup (applyCustomSettingsState s ft c).mode_settings (focusSettingsKey ft)
      = some (applyCustomToSettings st c) ∧
    ∀ k, k ≠ focusSettingsKey ft →
      alookup (applyCustomSettingsState s ft c).mode_settings k
        = alookup s.mode_settings k := by
  unfold applyCustomSettingsState
  simp only [h]
  exact ⟨alookup_alset_self _ _ _, fun k hk => alookup_alset_ne _ _ _ _ hk⟩

/-- Concrete merge: the Deep-focus record in the store now carries the
override, while the normal record is untouched. -/
theorem c6_amended_merge_mutates_store_witness :
    alookup (applyCustomSettingsState sC6 .DEEP c6custom).mode_settings
        "standard_focus_deep" = some (applyCustomToSettings deepBase c6custom) ∧
    alookup (applyCustomSettingsState sC6 .DEEP c6custom).mode_settings
        "standard_normal" = alookup sC6.mode_settings "standard_normal" :=
  ⟨(c6_amended_merge_mutates_store sC6 .DEEP c6custom deepBase rfl).1,
   (c6_amended_merge_mutates_store sC6 .DEEP c6custom deepBase rfl).2
     "standard_normal" (by decide)⟩

/-- Claim C7: on natural focus-timer expiry (shutdown unset, no
transition in progress, still in a focus submode) the engine transitions
back to Standard/Normal successfully and exactly one completion
notification is sent; and whenever the async end task runs with no
transition in progress and its transition attempt does not succeed, no
notification is sent. -/
theorem countNotify_append (l1 l2 : List Effect) :
    countNotify (l1 ++ l2) = countNotify l1 + countNotify l2 :=
  List.countP_append _ _ _

theorem countNotify_single (t m : String) :
    countNotify [Effect.notifySent t m] = 1 := rfl

theorem c7_natural_expiry_notification (now : ℚ) (s : ControllerState)
    (hsh : s.shutdown = false) (htr : s.transitioning = false)
    (hsm : s.current_submode = some .FOCUS) :
    (focusTimerNaturalExpiry now s).2.2 = some true ∧
    countNotify (focusTimerNaturalExpiry now s).2.1 = 1 ∧
    (focusTimerNaturalExpiry now s).1.current_mode = .STANDARD ∧
    (focusTimerNaturalExpiry now s).1.current_submode = some .NORMAL ∧
    (focusTimerNaturalExpiry now s).1.current_focus_type = none ∧
    (∀ s' : ControllerState, s'.transitioning = false ∨ s'.shutdown = true →
      (endFocusSessionAsync now s').2.2 ≠ some true →
      countNotify (endFocusSessionAsync now s').2.1 = 0) := by
  obtain ⟨ha, hb2, hc, hd, he, hf2⟩ := switch_to_normal_spec now s htr hsh
  have hkey : focusTimerNaturalExpiry now s
      = ((switchToMode now s .STANDARD (some .NORMAL) none none).2.1,
         (switchToMode now s .STANDARD (some .NORMAL) none none).2.2
           ++ [Effect.notifySent "Focus session complete!"
                "Your focus session has ended"],
         some (switchToMode now s .STANDARD (some .NORMAL) none none).1) := by
    unfold focusTimerNaturalExpiry scheduleFocusEnd endFocusSessionAsync
    simp [hsh, htr, hsm, hb2]
  have hlast : ∀ s' : ControllerState, s'.transitioning = false ∨ s'.shutdown = true →
      (endFocusSessionAsync now s').2.2 ≠ some true →
      countNotify (endFocusSessionAsync now s').2.1 = 0 := by
    intro s' hdisc hne
    by_cases hsd : s'.shutdown = true
    · unfold endFocusSessionAsync
      simp [hsd, countNotify]
    · have hsd' : s'.shutdown = false := by
        rwa [Bool.not_eq_true] at hsd
      have htr' : s'.transitioning = false := hdisc.resolve_right hsd
      obtain ⟨ha', _, _, _, _, _⟩ := switch_to_normal_spec now s' htr' hsd'
      exfalso
      apply hne
      unfold endFocusSessionAsync
      simp [hsd', ha']
  refine ⟨?_, ?_, ?_, ?_, ?_, hlast⟩
  · simp [hkey, ha]
  · simp [hkey, countNotify_append, hf2, countNotify_single]
  · simp [hkey, hc]
  · simp [hkey, hd]
  · simp [hkey, he]

/-- Concrete natural expiry from an active Deep-focus session: the
transition back to Standard/Normal succeeds and exactly one notification
goes out. -/
theorem c7_natural_expiry_notification_witness :
    (focusTimerNaturalExpiry 60 sDeepFocus).2.2 = some true ∧
    countNotify (focusTimerNaturalExpiry 60 sDeepFocus).2.1 = 1 ∧
    (focusTimerNaturalExpiry 60 sDeepFocus).1.current_submode = some .NORMAL :=
  ⟨(c7_natural_expiry_notification 60 sDeepFocus rfl rfl rfl).1,
   (c7_natural_expiry_notification 60 sDeepFocus rfl rfl rfl).2.1,
   (c7_natural_expiry_notification 60 sDeepFocus rfl rfl rfl).2.2.2.1⟩

theorem alget_alset_self (m : List (String × ℚ)) (k : String) (v : ℚ) :
    alget (alset m k v) k = v := by
  unfold alget
  rw [alookup_alset_self]
  rfl

theorem alget_alset_ne (m : List (String × ℚ)) (k k' : String) (v : ℚ)
    (h : k' ≠ k) : alget (alset m k v) k' = alget m k' := by
  unfold alget
  rw [alookup_alset_ne _ _ _ _ h]

/-- Folding the even context distribution of `_update_app_statistics`
adds `count · time_per_context` to every non-empty context key. -/
theorem alget_foldl_ctx (l : List String) (m : List (String × ℚ)) (tpc : ℚ)
    (c : String) (hc : c ≠ "") :
    alget (l.foldl (fun m context =>
        if context ≠ "" then alset m context (alget m context + tpc) else m) m) c
      = alget m c + (l.count c : ℚ) * tpc := by
  induction l generalizing m with
  | nil => simp
  | cons a l ih =>
      rw [List.foldl_cons]
      by_cases ha : a = ""
      · subst ha
        rw [if_neg (by simp)]
        rw [ih m]
        have hca : ¬(("" : String) = c) := fun hh => hc hh.symm
        simp [List.count_cons, hca]
      · rw [if_pos ha]
        rw [ih]
        by_cases hac : a = c
        · subst hac
          rw [alget_alset_self]
          simp [List.count_cons]
          ring
        · rw [alget_alset_ne _ _ _ _ (fun hh => hac hh.symm)]
          simp [List.count_cons, hac]

/-- Folding the even status distribution of `_update_app_statistics`
adds `count · time_per_status` to every status key, once per recorded
status change. -/
theorem alget_foldl_status {α : Type} (l : List (α × String)) (m : List (String × ℚ))
    (tps : ℚ) (st : String) :
    alget (l.foldl (fun m p => alset m p.2 (alget m p.2 + tps)) m) st
      = alget m st + ((l.map Prod.snd).count st : ℚ) * tps := by
  induction l generalizing m with
  | nil => simp
  | cons a l ih =>
      rw [List.foldl_cons]
      rw [ih]
      by_cases hast : a.2 = st
      · subst hast
        rw [alget_alset_self]
        simp [List.count_cons]
        ring
      · rw [alget_alset_ne _ _ _ _ (fun hh => hast hh.symm)]
        simp [List.count_cons, hast]

/-- Field accounting for the longest-session update: every other field
is untouched and `longest_session` becomes the max. -/
theorem statsWithLongest_fields (st : AppStatistics) (se : AppSession) :
    (statsWithLongest st se).total_time = st.total_time ∧
    (statsWithLongest st se).session_count = st.session_count ∧
    (statsWithLongest st se).last_used = st.last_used ∧
    (statsWithLongest st se).contexts = st.contexts ∧
    (statsWithLongest st se).statuses = st.statuses ∧
    (statsWithLongest st se).longest_session
      = max st.longest_session (se.total_duration : ℚ) := by
  unfold statsWithLongest
  split_ifs with h
  · exact ⟨rfl, rfl, rfl, rfl, rfl, (max_eq_right (le_of_lt h)).symm⟩
  · exact ⟨rfl, rfl, rfl, rfl, rfl, (max_eq_left (le_of_not_lt h)).symm⟩

/-- Field accounting for the context-distribution block: every other
field is untouched and every non-empty context key gains
`count · time_per_context`. -/
theorem statsWithContexts_fields (st : AppStatistics) (se : AppSession) :
    (statsWithContexts st se).total_time = st.total_time ∧
    (statsWithContexts st se).session_count = st.session_count ∧
    (statsWithContexts st se).last_used = st.last_used ∧
    (statsWithContexts st se).statuses = st.statuses ∧
    (statsWithContexts st se).longest_session = st.longest_session ∧
    (statsWithContexts st se).average_session_duration
      = st.average_session_duration ∧
    (∀ c, c ≠ "" → alget (statsWithContexts st se).contexts c
      = alget st.contexts c + (se.context_changes.count c : ℚ)
        * ((se.total_duration : ℚ) / (se.context_changes.length : ℚ))) := by
  unfold statsWithContexts
  split_ifs with h
  · exact ⟨rfl, rfl, rfl, rfl, rfl, rfl,
      fun c hc => alget_foldl_ctx _ _ _ _ hc⟩
  · have he : se.context_changes = [] := not_ne_iff.mp h
    refine ⟨rfl, rfl, rfl, rfl, rfl, rfl, ?_⟩
    intro c hc
    simp [he]

/-- Field accounting for the status-distribution block: every other
field is untouched and every status key gains one
`time_per_status` share per recorded occurrence. -/
theorem statsWithStatuses_fields (st : AppStatistics) (se : AppSession) :
    (statsWithStatuses st se).total_time = st.total_time ∧
    (statsWithStatuses st se).session_count = st.session_count ∧
    (statsWithStatuses st se).last_used = st.last_used ∧
    (statsWithStatuses st se).contexts = st.contexts ∧
    (statsWithStatuses st se).longest_session = st.longest_session ∧
    (statsWithStatuses st se).average_session_duration
      = st.average_session_duration ∧
    (∀ stat, alget (statsWithStatuses st se).statuses stat
      = alget st.statuses stat + ((se.status_changes.map Prod.snd).count stat : ℚ)
        * ((se.total_duration : ℚ) / (se.status_changes.length : ℚ))) := by
  unfold statsWithStatuses
  split_ifs with h
  · exact ⟨rfl, rfl, rfl, rfl, rfl, rfl, fun stat => alget_foldl_status _ _ _ _⟩
  · have he : se.status_changes = [] := not_ne_iff.mp h
    refine ⟨rfl, rfl, rfl, rfl, rfl, rfl, ?_⟩
    intro stat
    simp [he]

/-- Field accounting for `update_averages`: every other field is
untouched and the average becomes `total_time / session_count` whenever
the count is positive. -/
theorem statsWithAverage_fields (st : AppStatistics) :
    (statsWithAverage st).total_time = st.total_time ∧
    (statsWithAverage st).session_count = st.session_count ∧
    (statsWithAverage st).last_used = st.last_used ∧
    (statsWithAverage st).contexts = st.contexts ∧
    (statsWithAverage st).statuses = st.statuses ∧
    (statsWithAverage st).longest_session = st.longest_session ∧
    (0 < st.session_count → (statsWithAverage st).average_session_duration
      = st.total_time / (st.session_count : ℚ)) := by
  unfold statsWithAverage
  split_ifs with h
  · exact ⟨rfl, rfl, rfl, rfl, rfl, rfl, fun _ => rfl⟩
  · exact ⟨rfl, rfl, rfl, rfl, rfl, rfl, fun hp => absurd hp h⟩

/-- Claim C9: one run of the statistics fold over a finalized session
updates exactly the claimed fields: `total_time` grows by the duration,
`session_count` by one, `longest_session` takes the max, `last_used`
becomes the session's `end_time`, the average is recomputed as
`total_time / session_count`, and the duration is distributed evenly
over the recorded context changes and, separately, over the recorded
status changes. -/
theorem c9_statistics_fold (m : List (String × AppStatistics)) (sess : AppSession)
    (e : ℤ) (hend : sess.end_time = some e)
    (hctx : "" ∉ sess.context_changes) :
    ∃ stNew, alookup (updateAppStatistics m sess) sess.app_name = some stNew ∧
      stNew.total_time = (statsBefore m sess.app_name).total_time
        + (sess.total_duration : ℚ) ∧
      stNew.session_count = (statsBefore m sess.app_name).session_count + 1 ∧
      stNew.longest_session = max (statsBefore m sess.app_name).longest_session
        (sess.total_duration : ℚ) ∧
      stNew.last_used = some e ∧
      stNew.average_session_duration
        = stNew.total_time / (stNew.session_count : ℚ) ∧
      (∀ c ∈ sess.context_changes,
        alget stNew.contexts c = alget (statsBefore m sess.app_name).contexts c
          + (sess.context_changes.count c : ℚ)
            * ((sess.total_duration : ℚ) / (sess.context_changes.length : ℚ))) ∧
      (∀ st, alget stNew.statuses st = alget (statsBefore m sess.app_name).statuses st
          + ((sess.status_changes.map Prod.snd).count st : ℚ)
            * ((sess.total_duration : ℚ) / (sess.status_changes.length : ℚ))) := by
  obtain ⟨hL1, hL2, hL3, hL4, hL5, hL6⟩ :=
    statsWithLongest_fields (statsWithBasics (statsBefore m sess.app_name) sess) sess
  obtain ⟨hC1, hC2, hC3, hC4, hC5, hC6, hC7⟩ :=
    statsWithContexts_fields (statsWithLongest
      (statsWithBasics (statsBefore m sess.app_name) sess) sess) sess
  obtain ⟨hS1, hS2, hS3, hS4, hS5, hS6, hS7⟩ :=
    statsWithStatuses_fields (statsWithContexts (statsWithLongest
      (statsWithBasics (statsBefore m sess.app_name) sess) sess) sess) sess
  obtain ⟨hA1, hA2, hA3, hA4, hA5, hA6, hA7⟩ :=
    statsWithAverage_fields (statsWithStatuses (statsWithContexts (statsWithLongest
      (statsWithBasics (statsBefore m sess.app_name) sess) sess) sess) sess)
  refine ⟨_, alookup_alset_self _ _ _, ?_, ?_, ?_, ?_, ?_, ?_, ?_⟩
  · rw [hA1, hS1, hC1, hL1]
    rfl
  · rw [hA2, hS2, hC2, hL2]
    rfl
  · rw [hA6, hS5, hC5, hL6]
    rfl
  · rw [hA3, hS3, hC3, hL3]
    unfold statsWithBasics
    rw [hend]
  · rw [hA7 (by rw [hS2, hC2, hL2]; exact Nat.succ_pos _), hA1, hA2]
  · intro c hcmem
    have hcne : c ≠ "" := fun hh => hctx (hh ▸ hcmem)
    rw [hA4, hS4, hC7 c hcne, hL4]
    rfl
  · intro st
    rw [hA5, hS7 st, hC4, hL5]
    rfl

/-- A finalized session with two contexts and two status changes, as the
segmenter would record it. -/
def sess9 : AppSession :=
  { app_name := "editor", start_time := 0, end_time := some 10,
    total_duration := 10, context_changes := ["code", "docs"],
    titles_seen := ["t"], status_changes := [(0, "Productive"), (6, "Neutral")],
    window_count := 4 }

/-- Concrete statistics fold for a fresh app over `sess9`. -/
theorem c9_statistics_fold_witness :
    sess9.end_time = some 10 ∧ "" ∉ sess9.context_changes ∧
    (∃ stNew, alookup (updateAppStatistics [] sess9) sess9.app_name = some stNew ∧
      stNew.total_time = (statsBefore [] sess9.app_name).total_time
        + (sess9.total_duration : ℚ) ∧
      stNew.session_count = (statsBefore [] sess9.app_name).session_count + 1 ∧
      stNew.longest_session = max (statsBefore [] sess9.app_name).longest_session
        (sess9.total_duration : ℚ) ∧
      stNew.last_used = some 10 ∧
      stNew.average_session_duration
        = stNew.total_time / (stNew.session_count : ℚ) ∧
      (∀ c ∈ sess9.context_changes,
        alget stNew.contexts c = alget (statsBefore [] sess9.app_name).contexts c
          + (sess9.context_changes.count c : ℚ)
            * ((sess9.total_duration : ℚ) / (sess9.context_changes.length : ℚ))) ∧
      (∀ st, alget stNew.statuses st
          = alget (statsBefore [] sess9.app_name).statuses st
          + ((sess9.status_changes.map Prod.snd).count st : ℚ)
            * ((sess9.total_duration : ℚ) / (sess9.status_changes.length : ℚ)))) :=
  ⟨rfl, by decide, c9_statistics_fold [] sess9 10 rfl (by decide)⟩

/-- The spec scenario's observations: app "A" at t = 0, 5, 10, then app
"B" at t = 15. -/
def obsA0 : WindowInfo :=
  { raw_title := "a", timestamp := 0, app := "A", status := "Productive",
    context := "work" }

def obsA5 : WindowInfo := { obsA0 with timestamp := 5 }

def obsA10 : WindowInfo := { obsA0 with timestamp := 10 }

def obsB15 : WindowInfo :=
  { raw_title := "b", timestamp := 15, app := "B", status := "Neutral",
    context := "web" }

/-- Segmenter state after feeding obsA0, obsA5, obsA10 to a fresh
history (gap threshold 30). -/
def seg3 : HistoryState :=
  (addWindowInfo (addWindowInfo (addWindowInfo {} obsA0).1 obsA5).1 obsA10).1

/-- Segmenter state after additionally feeding obsB15. -/
def segRun : HistoryState := (addWindowInfo seg3 obsB15).1

/-- The open "A" session as it stands inside `seg3`. -/
def sessA3 : AppSession :=
  { app_name := "A", start_time := 0, context_changes := ["work"],
    titles_seen := ["a"], status_changes := [(0, "Productive")],
    window_count := 3, session_id := some 1 }

theorem endCurrentSession_mcp (x : HistoryState) (t : ℤ) :
    (endCurrentSession x t).mode_controller_present = x.mode_controller_present := by
  unfold endCurrentSession
  cases hcs : x.current_session <;> rfl

theorem startNewSession_mcp (x : HistoryState) (w : WindowInfo) (t : ℤ) :
    (startNewSession x w t).mode_controller_present = x.mode_controller_present := rfl

/-- The event trace of one `_add_window_info_unsafe` call, as a function
of the boundary decision, the presence of an open session and the
presence of a mode controller. -/
theorem addWindowInfo_events (st : HistoryState) (w : WindowInfo) :
    (addWindowInfo st w).2
      = if shouldStartNewSession st w.app w.timestamp = true then
          (if st.current_session.isSome = true then [SegEvent.sessionFinalized]
           else [])
          ++ (if st.mode_controller_present = true then
                [SegEvent.sessionStarted, SegEvent.enforced]
              else [SegEvent.sessionStarted])
        else [SegEvent.sessionUpdated] := by
  unfold addWindowInfo
  change ((if shouldStartNewSession st w.app w.timestamp = true then _ else _ :
    HistoryState × List SegEvent)).2 = _
  cases hbd : shouldStartNewSession st w.app w.timestamp <;>
    simp [startNewSession_mcp, endCurrentSession_mcp] <;>
    split <;> simp

/-- Claim C5: with a mode controller wired in, enforcement is invoked
for an observation exactly when that observation is a session boundary,
and the trace order on a boundary is finalize (when a session was open),
then open, then enforce; a non-boundary observation only updates the
open session and never enforces. -/
theorem c5_enforce_only_at_boundaries (st : HistoryState) (w : WindowInfo)
    (hmc : st.mode_controller_present = true) :
    (SegEvent.enforced ∈ (addWindowInfo st w).2 ↔
      shouldStartNewSession st w.app w.timestamp = true) ∧
    (shouldStartNewSession st w.app w.timestamp = true →
      (addWindowInfo st w).2
        = (if st.current_session.isSome then [SegEvent.sessionFinalized] else [])
          ++ [SegEvent.sessionStarted, SegEvent.enforced]) ∧
    (shouldStartNewSession st w.app w.timestamp = false →
      (addWindowInfo st w).2 = [SegEvent.sessionUpdated]) := by
  have hev := addWindowInfo_events st w
  rw [hmc] at hev
  refine ⟨?_, ?_, ?_⟩
  · rw [hev]
    cases hbd : shouldStartNewSession st w.app w.timestamp <;> simp [hbd]
  · intro h
    rw [hev, h]
    simp
  · intro h
    rw [hev, h]
    simp

/-- The finalized form of an open session at boundary time `t`, exactly
as `_end_current_session` stamps it. -/
def endedSession (cs : AppSession) (t : ℤ) : AppSession :=
  { cs with end_time := some t, total_duration := t - cs.start_time }

/-- Claim C4: (a) the boundary test fires exactly when no session is
open, the app differs, or the same-app gap strictly exceeds the
threshold; (b) finalizing at a boundary stamps `end_time` with the
triggering observation's timestamp and `total_duration` with
`end_time - start_time`, archiving exactly one session; (c) the spec's
scenario — app "A" at t = 0, 5, 10 then app "B" at t = 15 with
threshold 30 — yields exactly one finalized "A" session of duration 15
and an open "B" session started at 15. -/
theorem c4_session_boundaries (st : HistoryState) (app : String) (t : ℤ) :
    (shouldStartNewSession st app t = true ↔
      (st.current_session = none ∨
       (∃ cs, st.current_session = some cs ∧ cs.app_name ≠ app) ∨
       (∃ cs lt, st.current_session = some cs ∧ cs.app_name = app ∧
         st.last_window_time = some lt ∧ t - lt > st.session_gap_seconds))) ∧
    (∀ cs, st.current_session = some cs →
      (endCurrentSession st t).finalized = st.finalized ++ [endedSession cs t] ∧
      (endedSession cs t).end_time = some t ∧
      (endedSession cs t).total_duration = t - cs.start_time ∧
      (endCurrentSession st t).current_session = none) ∧
    ((segRun.finalized.map fun ss => (ss.app_name, ss.end_time, ss.total_duration))
       = [("A", some 15, 15)] ∧
     (segRun.current_session.map fun ss => (ss.app_name, ss.start_time))
       = some ("B", 15)) := by
  refine ⟨?_, ?_, by decide⟩
  · unfold shouldStartNewSession
    cases hcs : st.current_session with
    | none => simp
    | some cs =>
        by_cases happ : cs.app_name = app
        · cases hlt : st.last_window_time with
          | none => simp [happ]
          | some lt => simp [happ]
        · simp [happ]
  · intro cs hcs
    unfold endCurrentSession endedSession
    simp [hcs]

/-- Concrete boundary: feeding "B" at t = 15 into the state holding the
open "A" session (last seen at t = 10, gap 30) is a boundary, and
finalizing there closes the session with `end_time = 15`. -/
theorem c4_session_boundaries_witness :
    shouldStartNewSession seg3 "B" 15 = true ∧
    (endCurrentSession seg3 15).current_session = none ∧
    (endedSession sessA3 15).end_time = some 15 :=
  ⟨(c4_session_boundaries seg3 "B" 15).1.mpr
     (Or.inr (Or.inl ⟨sessA3, by decide, by decide⟩)),
   ((c4_session_boundaries seg3 "B" 15).2.1 sessA3 (by decide)).2.2.2,
   ((c4_session_boundaries seg3 "B" 15).2.1 sessA3 (by decide)).2.1⟩

/-- Concrete boundary trace: the "B" observation at t = 15 produces
finalize, open, enforce in that order. -/
theorem c5_enforce_only_at_boundaries_witness :
    (SegEvent.enforced ∈ (addWindowInfo seg3 obsB15).2 ↔
      shouldStartNewSession seg3 obsB15.app obsB15.timestamp = true) ∧
    (addWindowInfo seg3 obsB15).2
      = [SegEvent.sessionFinalized, SegEvent.sessionStarted, SegEvent.enforced] :=
  ⟨(c5_enforce_only_at_boundaries seg3 obsB15 (by decide)).1,
   by
     rw [(c5_enforce_only_at_boundaries seg3 obsB15 (by decide)).2.1 (by decide)]
     decide⟩

end FocusAi
